import Mathlib

/-!
Shallow embedding of the task-management client (App.jsx and its variants):
data model (tasks, profiles), the role-scoped task query, the status cycle,
the create/delete/remove handlers and the dashboard aggregation, together
with theorems settling the specification claims about them.
-/

namespace EyelevelPM

/-- Row of the remote `tasks` collection, as read by the client.
Nullable columns become `Option`; `status` and `role` stay strings, as in
the source. `created_at` is an abstract timestamp ordered by `≤`. -/
structure Task where
  id : Nat
  title : String
  project : String
  assigned_to : Option String
  due_date : Option String
  status : String
  created_by : String
  created_at : Nat
deriving Repr, DecidableEq

/-- Row of the `profiles` collection. -/
structure Profile where
  id : String
  name : String
  email : String
  role : String
  created_at : Nat
deriving Repr, DecidableEq

/-- The signed-in identity as exposed by the auth provider
(`session.user` / `auth.getUser()`): id, optional display name carried in
`user_metadata.name`, and email. -/
structure AuthUser where
  id : String
  metadataName : Option String
  email : String
deriving Repr, DecidableEq

/-- Definition `const isAdmin = profile?.role === 'admin'` from App.jsx. -/
def isAdminProfile (p : Profile) : Bool :=
  p.role == "admin"

/-- Insert a task into a list already sorted by `created_at` descending,
keeping it sorted. Models the store's order-by-column-descending result. -/
def insertByCreatedDesc (t : Task) : List Task → List Task
  | [] => [t]
  | u :: us =>
    if u.created_at ≤ t.created_at then t :: u :: us
    else u :: insertByCreatedDesc t us

/-- Sort a task list by `created_at` descending: the store's
`order('created_at', { ascending: false })`. -/
def sortByCreatedAtDesc : List Task → List Task
  | [] => []
  | t :: ts => insertByCreatedDesc t (sortByCreatedAtDesc ts)

/-- The query object `fetchTasks` composes and sends to the store:
an optional equality filter on `assigned_to` and the descending order
clause. The filter lives in the query itself, not in any post-processing. -/
structure TaskQuery where
  assignedToEq : Option String
  orderByCreatedAtDesc : Bool
deriving Repr, DecidableEq

/-- Query composition in `fetchTasks` (App.jsx lines 200-219):
`let query = from('tasks').select('*')`, then
`if (profile?.role === 'partner') query = query.eq('assigned_to', session.user.id)`,
then `.order('created_at', { ascending: false })`. -/
def fetchTasksQuery (profile : Profile) (sessionUserId : String) : TaskQuery :=
  if profile.role = "partner" then
    { assignedToEq := some sessionUserId, orderByCreatedAtDesc := true }
  else
    { assignedToEq := none, orderByCreatedAtDesc := true }

/-- Store-side evaluation of a task query: equality filter (a NULL
`assigned_to` never matches), then the order clause. -/
def runTaskQuery (tasks : List Task) (q : TaskQuery) : List Task :=
  let filtered :=
    match q.assignedToEq with
    | none => tasks
    | some uid => tasks.filter (fun t => t.assigned_to == some uid)
  if q.orderByCreatedAtDesc then sortByCreatedAtDesc filtered else filtered

/-- Function `fetchTasks`: compose the role-scoped query and let the store run it.
The rows the client receives are exactly the query result. -/
def fetchTasks (tasks : List Task) (profile : Profile) (sessionUserId : String) : List Task :=
  runTaskQuery tasks (fetchTasksQuery profile sessionUserId)

/-- Definition `const statusOrder = ['Pending', 'In Progress', 'Completed']`
(toggleTaskStatus, App.jsx line 280). -/
def statusOrder : List String :=
  ["Pending", "In Progress", "Completed"]

/-- Accumulator for the JavaScript `Array.prototype.indexOf` semantics:
index of the first element equal to `s`, counting from `k`. -/
def jsIndexOfAux (s : String) : List String → Int → Int
  | [], _ => -1
  | x :: xs, k => if x = s then k else jsIndexOfAux s xs (k + 1)

/-- JavaScript `l.indexOf(s)`: first index of `s` in `l`, or `-1`. -/
def jsIndexOf (l : List String) (s : String) : Int :=
  jsIndexOfAux s l 0

/-- Next status computed by `toggleTaskStatus`:
`statusOrder[(statusOrder.indexOf(task.status) + 1) % statusOrder.length]`.
An unknown status has index `-1`, so `(-1 + 1) % 3 = 0` selects `"Pending"`. -/
def nextStatus (s : String) : String :=
  let currentIndex := jsIndexOf statusOrder s
  statusOrder.getD ((currentIndex + 1) % (statusOrder.length : Int)).toNat ""

/-- Handler `toggleTaskStatus(task)` as a store update:
`update({ status: nextStatus }).eq('id', task.id)` rewrites the status of
every row whose id matches the client-supplied `task`, using the status
carried by that client copy. -/
def toggleTaskStatus (tasks : List Task) (task : Task) : List Task :=
  tasks.map (fun t =>
    if t.id == task.id then { t with status := nextStatus task.status } else t)

/-- Form buffer behind the create-task modal (`newTask` state). Empty
strings stand for the untouched fields, as in the source. -/
structure NewTaskForm where
  title : String
  project : String
  assigned_to : String
  due_date : String
deriving Repr, DecidableEq

/-- JavaScript `s || d` on strings: the empty string is falsy. -/
def jsOrString (s d : String) : String :=
  if s = "" then d else s

/-- JavaScript `s || null` on a string, as an `Option`. -/
def jsOrNull (s : String) : Option String :=
  if s = "" then none else some s

/-- Handler `handleCreateTask` (App.jsx lines 298-330): non-admins are turned away
before any store call; otherwise the task row is built from the form —
`title: newTask.title` with no emptiness check, `project: newTask.project
|| 'General'`, `assigned_to: newTask.assigned_to || null`, `due_date:
newTask.due_date || null`, `created_by: session.user.id`, `status:
'Pending'` — and handed to `insert`. The returned flag records whether the
insert operation was issued. -/
def handleCreateTask (profile : Profile) (tasks : List Task)
    (sessionUserId : String) (form : NewTaskForm) (newId : Nat) (now : Nat) :
    List Task × Bool :=
  if isAdminProfile profile = false then (tasks, false)
  else
    let taskData : Task :=
      { id := newId
        title := form.title
        project := jsOrString form.project "General"
        assigned_to := jsOrNull form.assigned_to
        due_date := jsOrNull form.due_date
        status := "Pending"
        created_by := sessionUserId
        created_at := now }
    (tasks ++ [taskData], true)

/-- Handler `handleDeleteTask(taskId)` (App.jsx lines 332-354): non-admins are
turned away, then the browser confirm gate, then
`delete().eq('id', taskId)`. The flag records whether the delete operation
was issued. -/
def handleDeleteTask (profile : Profile) (confirmed : Bool)
    (tasks : List Task) (taskId : Nat) : List Task × Bool :=
  if isAdminProfile profile = false then (tasks, false)
  else if confirmed = false then (tasks, false)
  else (tasks.filter (fun t => !(t.id == taskId)), true)

/-- The two remote collections the partner-removal flow touches. -/
structure Store where
  tasks : List Task
  profiles : List Profile
deriving Repr, DecidableEq

/-- Observable outcome of `handleRemovePartner`: which of the two delete
operations were issued, the resulting store, and the single message the
handler surfaces (every failure funnels into the one catch block's
`alert("Failed to remove partner: " + err.message)`). -/
structure RemovePartnerResult where
  taskDeleteAttempted : Bool
  profileDeleteAttempted : Bool
  store : Store
  alerted : Option String
deriving Repr, DecidableEq

/-- Handler `handleRemovePartner(partnerId)` (App.jsx lines 390-420): admin gate,
confirm gate, then `delete().eq('assigned_to', partnerId)` on tasks —
`if (tasksError) throw tasksError` aborts before the profile delete — then
`delete().eq('id', partnerId)` on profiles. The two failure flags inject a
backend failure (with its message) into the corresponding delete. -/
def handleRemovePartner (profile : Profile) (confirmed : Bool) (st : Store)
    (partnerId : String) (tasksDeleteFails : Bool) (tasksErrMsg : String)
    (profileDeleteFails : Bool) (profileErrMsg : String) :
    RemovePartnerResult :=
  if isAdminProfile profile = false then
    { taskDeleteAttempted := false
      profileDeleteAttempted := false
      store := st
      alerted := some "Only admins can remove partners" }
  else if confirmed = false then
    { taskDeleteAttempted := false
      profileDeleteAttempted := false
      store := st
      alerted := none }
  else if tasksDeleteFails then
    { taskDeleteAttempted := true
      profileDeleteAttempted := false
      store := st
      alerted := some ("Failed to remove partner: " ++ tasksErrMsg) }
  else
    let st1 : Store :=
      { st with tasks := st.tasks.filter (fun t => !(t.assigned_to == some partnerId)) }
    if profileDeleteFails then
      { taskDeleteAttempted := true
        profileDeleteAttempted := true
        store := st1
        alerted := some ("Failed to remove partner: " ++ profileErrMsg) }
    else
      { taskDeleteAttempted := true
        profileDeleteAttempted := true
        store := { st1 with profiles := st1.profiles.filter (fun p => !(p.id == partnerId)) }
        alerted := some "Partner removed successfully!" }

/-- Entry of the dashboard status chart: `{ name, value }`. -/
structure StatusDatum where
  name : String
  value : Nat
deriving Repr, DecidableEq

/-- Entry of the project-progress chart: `{ name, progress, label }`. -/
structure ProjectProgress where
  name : String
  progress : Nat
  label : String
deriving Repr, DecidableEq

/-- One step of the `tasks.reduce` building `projectAgg`: bump the
`(total, done)` pair of the task's project, inserting the project at the
end on first sight (JavaScript object keys keep insertion order here). -/
def bumpProject (acc : List (String × Nat × Nat)) (proj : String)
    (isDone : Bool) : List (String × Nat × Nat) :=
  match acc with
  | [] => [(proj, 1, if isDone then 1 else 0)]
  | (n, tot, d) :: rest =>
    if n = proj then (n, tot + 1, if isDone then d + 1 else d) :: rest
    else (n, tot, d) :: bumpProject rest proj isDone

/-- Aggregate `projectAgg`: per-project `(name, total, done)` in first-seen order. -/
def projectAgg (tasks : List Task) : List (String × Nat × Nat) :=
  tasks.foldl (fun acc t => bumpProject acc t.project (t.status == "Completed")) []

/-- Rounding `Math.round((done / (total || 1)) * 100)` over naturals: halves round
up, exactly as `Math.round` does for the non-negative ratios produced
here. -/
def jsRound100 (done total : Nat) : Nat :=
  let denom := if total = 0 then 1 else total
  (200 * done + denom) / (2 * denom)

/-- Output record of the `stats` aggregation (App.jsx lines 428-467). -/
structure Stats where
  total : Nat
  completed : Nat
  inProgress : Nat
  pending : Nat
  statusData : List StatusDatum
  projectProgressData : List ProjectProgress
  partnerData : List (String × Nat)
deriving Repr, DecidableEq

/-- The `stats` memo as a function of exactly its dependencies
`[tasks, partners, isAdmin]`: counts by status, `statusData` with the
zero-valued entries filtered out (`.filter(item => item.value > 0)`),
per-project progress, and — for admins only — the per-partner task count. -/
def computeStats (tasks : List Task) (partners : List Profile)
    (isAdmin : Bool) : Stats :=
  let total := tasks.length
  let completed := (tasks.filter (fun t => t.status == "Completed")).length
  let inProgress := (tasks.filter (fun t => t.status == "In Progress")).length
  let pending := (tasks.filter (fun t => t.status == "Pending")).length
  let statusData :=
    ([{ name := "Pending", value := pending },
      { name := "In Progress", value := inProgress },
      { name := "Completed", value := completed }] : List StatusDatum).filter
      (fun item => decide (0 < item.value))
  let projectProgressData :=
    (projectAgg tasks).map (fun e =>
      { name := e.1
        progress := jsRound100 e.2.2 e.2.1
        label := toString e.2.2 ++ "/" ++ toString e.2.1 ++ " Done" })
  let partnerData :=
    if isAdmin then
      partners.map (fun p =>
        (p.name, (tasks.filter (fun t => t.assigned_to == some p.id)).length))
    else []
  { total := total
    completed := completed
    inProgress := inProgress
    pending := pending
    statusData := statusData
    projectProgressData := projectProgressData
    partnerData := partnerData }

/-- JavaScript `o?.x || d` for an optional string: missing or empty falls
back to the default. -/
def jsOrOptString (o : Option String) (d : String) : String :=
  match o with
  | some s => if s = "" then d else s
  | none => d

/-- Resolver `fetchProfile(userId)` (App.jsx lines 164-198): select the profile row
keyed by the identity id. A hit is returned as-is. A miss (the backend's
no-rows error `PGRST116`) builds the default row — name from
`user_metadata.name || 'User'`, the identity's email, role `'partner'` —
inserts it, and resolves to the created row. Returns the profiles
collection after the call together with the resolved profile. -/
def fetchProfile (profiles : List Profile) (userId : String)
    (authUser : AuthUser) (now : Nat) : List Profile × Option Profile :=
  match profiles.find? (fun p => p.id == userId) with
  | some p => (profiles, some p)
  | none =>
    let newProfile : Profile :=
      { id := userId
        name := jsOrOptString authUser.metadataName "User"
        email := authUser.email
        role := "partner"
        created_at := now }
    (profiles ++ [newProfile], some newProfile)

/-! Concrete sample data used to instantiate the theorems below. -/

/-- Sample task assigned to partner `u1`. -/
def taskA : Task :=
  { id := 1, title := "Ship report", project := "General", assigned_to := some "u1",
    due_date := none, status := "Pending", created_by := "adm", created_at := 10 }

/-- Sample task assigned to partner `u2`. -/
def taskB : Task :=
  { id := 2, title := "Audit books", project := "Ops", assigned_to := some "u2",
    due_date := none, status := "Completed", created_by := "adm", created_at := 20 }

/-- Sample admin profile. -/
def adminProfile : Profile :=
  { id := "adm", name := "Ada", email := "ada@example.com", role := "admin", created_at := 0 }

/-- Sample partner profile. -/
def partnerProfile : Profile :=
  { id := "u1", name := "Pat", email := "pat@example.com", role := "partner", created_at := 1 }

/-- Stored row whose status has advanced past the client's cached copy. -/
def storedTaskC3 : Task :=
  { id := 7, title := "Sync", project := "General", assigned_to := some "u1",
    due_date := none, status := "In Progress", created_by := "adm", created_at := 3 }

/-- Stale client-cached copy of `storedTaskC3`. -/
def cachedTaskC3 : Task :=
  { storedTaskC3 with status := "Pending" }

/-- Create-task form whose title was left empty. -/
def emptyTitleForm : NewTaskForm :=
  { title := "", project := "Ops", assigned_to := "", due_date := "" }

/-- Sample store holding one partner and one task assigned to them. -/
def storeC5 : Store :=
  { tasks := [taskA], profiles := [partnerProfile] }

/-- Sample signed-in identity with a display name in its metadata. -/
def sampleAuthUser : AuthUser :=
  { id := "u9", metadataName := some "Nia", email := "nia@example.com" }

/-- Sortedness by creation time, newest first. -/
def CreatedDescOrdered (l : List Task) : Prop :=
  l.Pairwise (fun a b => b.created_at ≤ a.created_at)

/-! Helper lemmas about the descending insertion sort. -/

theorem mem_insertByCreatedDesc {u t : Task} {l : List Task} :
    u ∈ insertByCreatedDesc t l ↔ u = t ∨ u ∈ l := by
  induction l with
  | nil => simp [insertByCreatedDesc]
  | cons v vs ih =>
    by_cases h : v.created_at ≤ t.created_at
    · simp [insertByCreatedDesc, h]
    · simp [insertByCreatedDesc, h, ih]
      tauto

theorem mem_sortByCreatedAtDesc {u : Task} {l : List Task} :
    u ∈ sortByCreatedAtDesc l ↔ u ∈ l := by
  induction l with
  | nil => simp [sortByCreatedAtDesc]
  | cons t ts ih => simp [sortByCreatedAtDesc, mem_insertByCreatedDesc, ih]

theorem pairwise_insertByCreatedDesc {t : Task} {l : List Task}
    (h : CreatedDescOrdered l) : CreatedDescOrdered (insertByCreatedDesc t l) := by
  induction l with
  | nil => simp [insertByCreatedDesc, CreatedDescOrdered]
  | cons v vs ih =>
    rcases List.pairwise_cons.mp h with ⟨hv, hvs⟩
    by_cases hle : v.created_at ≤ t.created_at
    · unfold CreatedDescOrdered at h ⊢
      simp only [insertByCreatedDesc, if_pos hle]
      refine List.pairwise_cons.mpr ⟨?_, h⟩
      intro x hx
      rcases List.mem_cons.mp hx with rfl | hx2
      · exact hle
      · exact le_trans (hv x hx2) hle
    · unfold CreatedDescOrdered
      simp only [insertByCreatedDesc, if_neg hle]
      refine List.pairwise_cons.mpr ⟨?_, ih hvs⟩
      intro x hx
      rcases mem_insertByCreatedDesc.mp hx with rfl | hx2
      · exact le_of_not_le hle
      · exact hv x hx2

theorem sortByCreatedAtDesc_ordered (l : List Task) :
    CreatedDescOrdered (sortByCreatedAtDesc l) := by
  induction l with
  | nil => simp [sortByCreatedAtDesc, CreatedDescOrdered]
  | cons t ts ih => exact pairwise_insertByCreatedDesc ih

/-- Closed form of the status transition over arbitrary strings. -/
theorem nextStatus_closed (s : String) :
    nextStatus s =
      if "Pending" = s then "In Progress"
      else if "In Progress" = s then "Completed"
      else "Pending" := by
  by_cases h1 : "Pending" = s
  · subst h1
    simp only [if_pos rfl]
    rfl
  · by_cases h2 : "In Progress" = s
    · subst h2
      rw [if_neg h1, if_pos rfl]
      rfl
    · rw [if_neg h1, if_neg h2]
      by_cases h3 : "Completed" = s
      · subst h3
        rfl
      · simp only [nextStatus, jsIndexOf, statusOrder, jsIndexOfAux,
          if_neg h1, if_neg h2, if_neg h3]
        rfl

/-- Shared shape of every status update: any row of the updated list whose
id matches the client-supplied task carries `nextStatus` of that client
copy's status. -/
theorem toggleTaskStatus_mem_update (tasks : List Task) (task u : Task)
    (hu : u ∈ toggleTaskStatus tasks task) (hid : u.id = task.id) :
    u.status = nextStatus task.status := by
  unfold toggleTaskStatus at hu
  rcases List.mem_map.mp hu with ⟨t, _, heq⟩
  by_cases h : (t.id == task.id) = true
  · rw [if_pos h] at heq
    subst heq
    rfl
  · rw [if_neg h] at heq
    subst heq
    exact absurd (beq_iff_eq.mpr hid) h

/-! Claim theorems. -/

/-- Claim C1: with an admin profile `fetchTasks` returns all tasks ordered
by creation time descending; with a partner profile the composed query
itself carries the `assigned_to = identity id` equality filter (no
client-side post-filter), the result is the filtered list in the same
ordering, and no task with a different `assigned_to` is ever returned;
in every case the returned list is ordered by creation time descending. -/
theorem fetchTasks_role_scoping (tasks : List Task) (profile : Profile) (uid : String) :
    (profile.role = "admin" → fetchTasks tasks profile uid = sortByCreatedAtDesc tasks)
    ∧ (profile.role = "partner" →
        (fetchTasksQuery profile uid).assignedToEq = some uid
        ∧ fetchTasks tasks profile uid =
            sortByCreatedAtDesc (tasks.filter (fun t => t.assigned_to == some uid))
        ∧ ∀ t ∈ fetchTasks tasks profile uid, t.assigned_to = some uid)
    ∧ CreatedDescOrdered (fetchTasks tasks profile uid) := by
  refine ⟨?_, ?_, ?_⟩
  · intro h
    have hne : ¬ profile.role = "partner" := by
      rw [h]; decide
    simp [fetchTasks, fetchTasksQuery, runTaskQuery, hne]
  · intro h
    refine ⟨?_, ?_, ?_⟩
    · simp [fetchTasksQuery, h]
    · simp [fetchTasks, fetchTasksQuery, runTaskQuery, h]
    · intro t ht
      have heq : fetchTasks tasks profile uid =
          sortByCreatedAtDesc (tasks.filter (fun t => t.assigned_to == some uid)) := by
        simp [fetchTasks, fetchTasksQuery, runTaskQuery, h]
      rw [heq] at ht
      have hmem := mem_sortByCreatedAtDesc.mp ht
      rcases List.mem_filter.mp hmem with ⟨_, hf⟩
      exact beq_iff_eq.mp hf
  · by_cases h : profile.role = "partner"
    · have heq : fetchTasks tasks profile uid =
          sortByCreatedAtDesc (tasks.filter (fun t => t.assigned_to == some uid)) := by
        simp [fetchTasks, fetchTasksQuery, runTaskQuery, h]
      rw [heq]
      exact sortByCreatedAtDesc_ordered _
    · have heq : fetchTasks tasks profile uid = sortByCreatedAtDesc tasks := by
        simp [fetchTasks, fetchTasksQuery, runTaskQuery, h]
      rw [heq]
      exact sortByCreatedAtDesc_ordered _

/-- Witness for C1 at concrete data: the admin sees both tasks sorted, the
partner query carries the equality filter, and the one task the partner
receives is assigned to them. -/
theorem fetchTasks_role_scoping_witness :
    fetchTasks [taskA, taskB] adminProfile "adm" = sortByCreatedAtDesc [taskA, taskB]
    ∧ (fetchTasksQuery partnerProfile "u1").assignedToEq = some "u1"
    ∧ taskA.assigned_to = some "u1" :=
  ⟨(fetchTasks_role_scoping [taskA, taskB] adminProfile "adm").1 rfl,
   ((fetchTasks_role_scoping [taskA, taskB] partnerProfile "u1").2.1 rfl).1,
   ((fetchTasks_role_scoping [taskA, taskB] partnerProfile "u1").2.1 rfl).2.2
     taskA (by decide)⟩

/-- Claim C2: the transition advances Pending to In Progress to Completed
back to Pending, three applications are the identity on the enumerated
statuses, and the persisted row carries exactly the advanced status. -/
theorem toggleTaskStatus_status_cycle :
    (nextStatus "Pending" = "In Progress"
      ∧ nextStatus "In Progress" = "Completed"
      ∧ nextStatus "Completed" = "Pending")
    ∧ (∀ s ∈ statusOrder, nextStatus (nextStatus (nextStatus s)) = s)
    ∧ (∀ (tasks : List Task) (task u : Task), u ∈ toggleTaskStatus tasks task →
        u.id = task.id → u.status = nextStatus task.status) :=
  ⟨⟨rfl, rfl, rfl⟩, by decide,
   fun tasks task u hu hid => toggleTaskStatus_mem_update tasks task u hu hid⟩

/-- Witness for C2: the three-step cycle at "Pending" and the concrete
persisted row after toggling `taskA`. -/
theorem toggleTaskStatus_status_cycle_witness :
    nextStatus (nextStatus (nextStatus "Pending")) = "Pending"
    ∧ ({ taskA with status := "In Progress" } : Task).status = nextStatus taskA.status :=
  ⟨toggleTaskStatus_status_cycle.2.1 "Pending" (by decide),
   toggleTaskStatus_status_cycle.2.2 [taskA] taskA { taskA with status := "In Progress" }
     (by decide) rfl⟩

/-- Counterexample to claim C3: the store holds the task at status
"In Progress", the client passes a stale cached copy still at "Pending",
and the persisted status is `nextStatus` of the cached copy
("In Progress"), not `nextStatus` of the stored status ("Completed"). -/
theorem toggleTaskStatus_stale_cache_cex :
    List.find? (fun t => t.id == cachedTaskC3.id) [storedTaskC3] = some storedTaskC3
    ∧ storedTaskC3.status ≠ cachedTaskC3.status
    ∧ toggleTaskStatus [storedTaskC3] cachedTaskC3
        = [{ storedTaskC3 with status := "In Progress" }]
    ∧ nextStatus storedTaskC3.status = "Completed"
    ∧ ({ storedTaskC3 with status := "In Progress" } : Task).status ≠ "Completed" := by
  decide

/-- Claim C3 as amended: `toggleTaskStatus` computes the next status from
the client-cached task value passed in; even when the store holds a row
with the same id and a different status, the persisted status is
`nextStatus` of the cached status. -/
theorem toggleTaskStatus_next_from_cached (tasks : List Task) (cached stored u : Task)
    (_hstored : tasks.find? (fun t => t.id == cached.id) = some stored)
    (hu : u ∈ toggleTaskStatus tasks cached) (hid : u.id = cached.id) :
    u.status = nextStatus cached.status :=
  toggleTaskStatus_mem_update tasks cached u hu hid

/-- Witness for the amended C3 at the stale-cache sample data. -/
theorem toggleTaskStatus_next_from_cached_witness :
    ({ storedTaskC3 with status := "In Progress" } : Task).status
      = nextStatus cachedTaskC3.status :=
  toggleTaskStatus_next_from_cached [storedTaskC3] cachedTaskC3 storedTaskC3
    { storedTaskC3 with status := "In Progress" } (by decide) (by decide) rfl

/-- Counterexample to claim C4: an admin invoking `handleCreateTask` with
an empty title does reach the persistence insert — the flag records the
insert was issued and the store gains a row whose title is empty. -/
theorem handleCreateTask_empty_title_cex :
    (handleCreateTask adminProfile [] "adm" emptyTitleForm 1 0).2 = true
    ∧ (handleCreateTask adminProfile [] "adm" emptyTitleForm 1 0).1
        = [{ id := 1, title := "", project := "Ops", assigned_to := none,
             due_date := none, status := "Pending", created_by := "adm",
             created_at := 0 }] := by
  decide

/-- Claim C4 as amended: `handleCreateTask` performs no title validation
itself (the empty-title guard is only the form input's `required`
attribute, outside this function): invoked by an admin it always issues
the insert with the title exactly as given — empty included — defaulting
project to "General", status to "Pending" and created_by to the session
user; invoked by a non-admin it leaves the store untouched. -/
theorem handleCreateTask_no_title_validation (p : Profile) (tasks : List Task)
    (uid : String) (form : NewTaskForm) (newId now : Nat) :
    (isAdminProfile p = true →
      handleCreateTask p tasks uid form newId now =
        (tasks ++ [{ id := newId, title := form.title,
                     project := jsOrString form.project "General",
                     assigned_to := jsOrNull form.assigned_to,
                     due_date := jsOrNull form.due_date,
                     status := "Pending", created_by := uid, created_at := now }],
         true))
    ∧ (isAdminProfile p = false →
        handleCreateTask p tasks uid form newId now = (tasks, false)) := by
  constructor <;> intro h <;> simp [handleCreateTask, h]

/-- Witness for the amended C4: the admin inserts the empty-titled row, the
partner changes nothing. -/
theorem handleCreateTask_no_title_validation_witness :
    handleCreateTask adminProfile [] "adm" emptyTitleForm 1 0 =
      ([{ id := 1, title := emptyTitleForm.title,
          project := jsOrString emptyTitleForm.project "General",
          assigned_to := jsOrNull emptyTitleForm.assigned_to,
          due_date := jsOrNull emptyTitleForm.due_date,
          status := "Pending", created_by := "adm", created_at := 0 }], true)
    ∧ handleCreateTask partnerProfile [] "adm" emptyTitleForm 1 0 = ([], false) :=
  ⟨(handleCreateTask_no_title_validation adminProfile [] "adm" emptyTitleForm 1 0).1 rfl,
   (handleCreateTask_no_title_validation partnerProfile [] "adm" emptyTitleForm 1 0).2 rfl⟩

/-- Counterexample to claim C5: when the task-cleanup delete fails, the
profile delete is never attempted (the thrown `tasksError` aborts the
flow), and a task-cleanup failure and a profile-deletion failure carrying
the same backend message surface as the identical alert — the two failure
kinds are not distinguished by the handler. -/
theorem handleRemovePartner_no_second_attempt_cex :
    (handleRemovePartner adminProfile true storeC5 "u1" true "boom" false "").profileDeleteAttempted
        = false
    ∧ (handleRemovePartner adminProfile true storeC5 "u1" true "boom" false "").store = storeC5
    ∧ (handleRemovePartner adminProfile true storeC5 "u1" true "dbfail" false "").alerted
        = (handleRemovePartner adminProfile true storeC5 "u1" false "" true "dbfail").alerted := by
  decide

/-- Claim C5 as amended: an admin's partner removal deletes all tasks
assigned to the partner and then the profile when both operations succeed;
a task-cleanup failure aborts the flow before the profile deletion is
attempted and leaves the store unchanged; a profile-deletion failure
leaves the tasks already removed and the profile in place; either failure
is surfaced through the same generic "Failed to remove partner" alert. -/
theorem handleRemovePartner_sequencing (p : Profile) (st : Store)
    (pid m1 m2 : String) (hp : isAdminProfile p = true) :
    (handleRemovePartner p true st pid false m1 false m2 =
      { taskDeleteAttempted := true, profileDeleteAttempted := true,
        store := { tasks := st.tasks.filter (fun t => !(t.assigned_to == some pid)),
                   profiles := st.profiles.filter (fun q => !(q.id == pid)) },
        alerted := some "Partner removed successfully!" })
    ∧ (handleRemovePartner p true st pid true m1 false m2 =
        { taskDeleteAttempted := true, profileDeleteAttempted := false,
          store := st, alerted := some ("Failed to remove partner: " ++ m1) })
    ∧ (handleRemovePartner p true st pid false m1 true m2 =
        { taskDeleteAttempted := true, profileDeleteAttempted := true,
          store := { st with tasks := st.tasks.filter (fun t => !(t.assigned_to == some pid)) },
          alerted := some ("Failed to remove partner: " ++ m2) }) := by
  refine ⟨?_, ?_, ?_⟩ <;> simp [handleRemovePartner, hp]

/-- Witness for the amended C5 at the sample store: the success path
removes both the assigned task and the profile. -/
theorem handleRemovePartner_sequencing_witness :
    handleRemovePartner adminProfile true storeC5 "u1" false "" false "" =
      { taskDeleteAttempted := true, profileDeleteAttempted := true,
        store := { tasks := storeC5.tasks.filter (fun t => !(t.assigned_to == some "u1")),
                   profiles := storeC5.profiles.filter (fun q => !(q.id == "u1")) },
        alerted := some "Partner removed successfully!" } :=
  (handleRemovePartner_sequencing adminProfile storeC5 "u1" "" "" rfl).1

/-- Claim C6: a profile whose role is not "admin" invoking
`handleDeleteTask` is turned away before any store call — the delete is
never issued and the task list is returned unchanged. -/
theorem handleDeleteTask_forbidden_non_admin (p : Profile) (confirmed : Bool)
    (tasks : List Task) (taskId : Nat) (h : p.role ≠ "admin") :
    handleDeleteTask p confirmed tasks taskId = (tasks, false) := by
  have hb : isAdminProfile p = false := by
    simp [isAdminProfile]
    exact h
  simp [handleDeleteTask, hb]

/-- Witness for C6: the partner profile cannot delete `taskA`. -/
theorem handleDeleteTask_forbidden_non_admin_witness :
    handleDeleteTask partnerProfile true [taskA] 1 = ([taskA], false) :=
  handleDeleteTask_forbidden_non_admin partnerProfile true [taskA] 1 (by decide)

/-- Counterexample to claim C7: on the empty task list `statusData` is the
empty list — the `.filter(item => item.value > 0)` step drops the
zero-valued entries — not the all-zero list of the three statuses. -/
theorem computeStats_empty_statusData_cex :
    (computeStats [] [] true).statusData = []
    ∧ (computeStats [] [] true).statusData ≠
        [{ name := "Pending", value := 0 }, { name := "In Progress", value := 0 },
         { name := "Completed", value := 0 }] := by
  decide

/-- Claim C7 as amended: on the empty task list every count is zero,
`statusData` is empty (zero-valued entries are filtered out, so the
fixed-order three-status list appears only for positive counts),
project progress is empty, and the partner load is empty for a non-admin
viewer while for an admin it is one zero-count entry per partner — empty
exactly when the partner list is. -/
theorem computeStats_empty_tasks (partners : List Profile) (isAdmin : Bool) :
    computeStats [] partners isAdmin =
      { total := 0, completed := 0, inProgress := 0, pending := 0,
        statusData := [], projectProgressData := [],
        partnerData := if isAdmin then partners.map (fun p => (p.name, 0)) else [] } := by
  simp [computeStats, projectAgg]

/-- Claim C8: the stats aggregation is a pure function of exactly the task
list, the partner list and the admin flag — two runs on equal inputs
yield identical outputs, with no other state involved. -/
theorem computeStats_deterministic (t1 t2 : List Task) (p1 p2 : List Profile)
    (a1 a2 : Bool) (ht : t1 = t2) (hp : p1 = p2) (ha : a1 = a2) :
    computeStats t1 p1 a1 = computeStats t2 p2 a2 := by
  subst ht
  subst hp
  subst ha
  rfl

/-- Witness for C8 at concrete inputs. -/
theorem computeStats_deterministic_witness :
    computeStats [taskA] [partnerProfile] true = computeStats [taskA] [partnerProfile] true :=
  computeStats_deterministic [taskA] [taskA] [partnerProfile] [partnerProfile]
    true true rfl rfl rfl

/-- Claim C9: when no profile row matches the identity id, `fetchProfile`
persists the default row (name from the identity metadata or "User", the
identity's email, role "partner") and resolves to that created row; when a
row exists it is returned unchanged. -/
theorem fetchProfile_resolution (profiles : List Profile) (userId : String)
    (authUser : AuthUser) (now : Nat) :
    (profiles.find? (fun p => p.id == userId) = none →
      fetchProfile profiles userId authUser now =
        (profiles ++ [{ id := userId, name := jsOrOptString authUser.metadataName "User",
                        email := authUser.email, role := "partner", created_at := now }],
         some { id := userId, name := jsOrOptString authUser.metadataName "User",
                email := authUser.email, role := "partner", created_at := now }))
    ∧ (∀ q, profiles.find? (fun p => p.id == userId) = some q →
        fetchProfile profiles userId authUser now = (profiles, some q)) := by
  constructor
  · intro h
    unfold fetchProfile
    rw [h]
  · intro q h
    unfold fetchProfile
    rw [h]

/-- Witness for C9: a first-time login creates and returns the default
row; a known partner id resolves to the stored row unchanged. -/
theorem fetchProfile_resolution_witness :
    fetchProfile [] "u9" sampleAuthUser 4 =
      ([{ id := "u9", name := jsOrOptString sampleAuthUser.metadataName "User",
          email := sampleAuthUser.email, role := "partner", created_at := 4 }],
       some { id := "u9", name := jsOrOptString sampleAuthUser.metadataName "User",
              email := sampleAuthUser.email, role := "partner", created_at := 4 })
    ∧ fetchProfile [partnerProfile] "u1" sampleAuthUser 4 =
        ([partnerProfile], some partnerProfile) :=
  ⟨(fetchProfile_resolution [] "u9" sampleAuthUser 4).1 rfl,
   (fetchProfile_resolution [partnerProfile] "u1" sampleAuthUser 4).2
     partnerProfile (by decide)⟩

/-- Claim C10: the transition is total over arbitrary status strings — any
status outside the enumerated three is sent to "Pending" (its index is
`-1`, so `(-1 + 1) % 3` selects slot 0), and the transition always lands
inside the enumerated set. -/
theorem nextStatus_total (s : String) :
    (s ∉ statusOrder → nextStatus s = "Pending") ∧ nextStatus s ∈ statusOrder := by
  constructor
  · intro hs
    simp only [statusOrder, List.mem_cons, List.not_mem_nil, or_false, not_or] at hs
    obtain ⟨h1, h2, h3⟩ := hs
    rw [nextStatus_closed, if_neg (fun h => h1 h.symm), if_neg (fun h => h2 h.symm)]
  · rw [nextStatus_closed]
    by_cases h1 : "Pending" = s
    · rw [if_pos h1]
      decide
    · rw [if_neg h1]
      by_cases h2 : "In Progress" = s
      · rw [if_pos h2]
        decide
      · rw [if_neg h2]
        decide

/-- Witness for C10 at a status string outside the enumerated set. -/
theorem nextStatus_total_witness :
    "Blocked" ∉ statusOrder ∧ nextStatus "Blocked" = "Pending" :=
  ⟨by decide, (nextStatus_total "Blocked").1 (by decide)⟩

end EyelevelPM
